import Mathlib

/-!
A shallow embedding of the `the-rivulet/minimal` program (src/main.rs and
src/min.rs) and proofs about it.  Pure functions of the source are translated
into Lean functions; the stateful pieces (the matchmaking slot, the game
session loop) become explicit state-passing step functions.  Machine bytes are
`Fin 256`, Rust `f64` values are modelled as rationals, and the external
serde_json byte rendering/parsing is modelled at the level of JSON documents.
-/

namespace Minimal

/-- A machine byte (`u8`). -/
abbrev Byte := Fin 256

/-- Peer identity (`iroh::NodeId` / `PublicKey`): opaque, modelled as a natural
number. -/
abbrev PeerId := ℕ

/-- `bytes_from_str` (main.rs lines 42-55), acting on the UTF-8 byte sequence
`s.as_bytes()` of the input string.  Copies the first 32 bytes when the input
is longer than 32, otherwise writes the bytes into a zero-initialized 32-byte
array, i.e. pads on the right with zeros. -/
def bytes_from_str (s : List Byte) : List Byte :=
  if s.length > 32 then
    s.take 32
  else
    s ++ List.replicate (32 - s.length) 0

/-! ## The crafting engine (src/min.rs) -/

/-- The `Component` enum (min.rs lines 17-27). -/
inductive Component where
  | Red
  | Green
  | Blue
  | Attack
  | Block
  | Buff
  | Debuff
  | Stun
  deriving DecidableEq, Repr

/-- `Component::is_color` (min.rs lines 60-62). -/
def Component.is_color (c : Component) : Bool :=
  c = .Red ∨ c = .Green ∨ c = .Blue

/-- The `Skill` struct (min.rs lines 72-76).  A `HashBag<Component>` is a
multiset of components. -/
structure Skill where
  name : String
  description : String
  components : Multiset Component
  deriving DecidableEq

/-- `Skill::get_all_recipes` (min.rs lines 78-91): the fixed recipe table;
each `make_skill` call builds a singleton bag. -/
def Skill.get_all_recipes : List Skill :=
  [ ⟨"Attack", "Deal 80% of Red power as Red damage", {Component.Attack}⟩,
    ⟨"Block", "no idea tbh", {Component.Block}⟩,
    ⟨"Buff", "no idea tbh 2", {Component.Buff}⟩,
    ⟨"Debuff", "no idea tbh 3", {Component.Debuff}⟩,
    ⟨"Stun", "no idea tbh 4", {Component.Stun}⟩ ]

/-- `Skill::craft` (min.rs lines 92-97): linear scan of the recipe table,
returning the first recipe whose component multiset is exactly equal to the
input. -/
def Skill.craft (components : Multiset Component) : Option Skill :=
  Skill.get_all_recipes.find? (fun i => components = i.components)

/-- `Component::get_description` (min.rs lines 41-48).  For the three colors a
fixed string; for every other component the description obtained by crafting
the singleton bag of that component and unwrapping.  The `unwrap()` panic on
`None` is modelled by the impossible-branch string. -/
def Component.get_description (c : Component) : String :=
  match c with
  | .Red => "Fast speed, physical type. Chaos and momentum."
  | .Green => "Normal speed, healing type. Protection and trickery."
  | .Blue => "Slow speed, magical type. Deterrents and destruction."
  | other =>
    match Skill.craft {other} with
    | some sk => sk.description
    | none => "panicked: called unwrap on a None value"

/-! ## Message envelope and codec (src/main.rs lines 241-276)

The `serde_json` byte rendering and parsing of JSON documents is external to
this repository; the codec is therefore modelled at the level of JSON
documents.  `MinimalMessage::to_vec` is the composition of the derived
`Serialize` (embedded below as `to_json`, following serde's externally-tagged
enum layout in field declaration order) with the external document printer;
`MinimalMessage::from_bytes` is the external document parser followed by the
derived `Deserialize` (embedded as `from_json` on the canonical layout).  The
external `iroh::NodeId` serializer is modelled as an injective numeric leaf,
and `f64` values as rationals. -/

/-- The 16-byte random nonce field (`nonce: [u8; 16]`). -/
def Nonce := { l : List Byte // l.length = 16 }

instance : DecidableEq Nonce := Subtype.instDecidableEq

/-- The `ChatMessage` enum (main.rs lines 253-259); `game_id: f64` is modelled
as a rational. -/
inductive ChatMessage where
  | AboutMe (from_ : PeerId) (name : String)
  | Message (from_ : PeerId) (text : String)
  | GameRequest (from_ : PeerId)
  | GameStart (from_ : PeerId) (orig_sender : PeerId) (game_id : ℚ)
  deriving DecidableEq

/-- The `GameMessage` enum (main.rs lines 261-264). -/
inductive GameMessage where
  | Aborted
  deriving DecidableEq, Repr

/-- The `MinimalMessageType` enum (main.rs lines 247-251). -/
inductive MinimalMessageType where
  | Chat (c : ChatMessage)
  | Game (g : GameMessage)
  deriving DecidableEq

/-- The `MinimalMessage` struct (main.rs lines 241-245). -/
structure MinimalMessage where
  body : MinimalMessageType
  nonce : Nonce

/-- A JSON document: numbers (as rationals), strings, arrays and objects. -/
inductive Json where
  | num (q : ℚ)
  | str (s : String)
  | arr (items : List Json)
  | obj (fields : List (String × Json))

/-- Serialization of a `NodeId` (external `iroh` serializer, modelled as an
injective numeric leaf). -/
def peerIdToJson (p : PeerId) : Json := .num (p : ℚ)

/-- Deserialization of a `NodeId`. -/
def peerIdFromJson : Json → Option PeerId
  | .num q => if q.den = 1 ∧ 0 ≤ q.num then some q.num.toNat else none
  | _ => none

/-- Serialization of one byte (a JSON number). -/
def byteToJson (b : Byte) : Json := .num ((b : ℕ) : ℚ)

/-- Deserialization of one byte. -/
def byteFromJson : Json → Option Byte
  | .num q =>
    if h : q.den = 1 ∧ 0 ≤ q.num ∧ q.num < 256 then
      some ⟨q.num.toNat, by
        have h2 := h.2.2
        omega⟩
    else none
  | _ => none

/-- Serialization of the nonce array. -/
def nonceToJson (n : Nonce) : Json := .arr (n.val.map byteToJson)

/-- Deserialization of a sequence of bytes, element-wise. -/
def decodeBytes : List Json → Option (List Byte)
  | [] => some []
  | j :: rest =>
    match byteFromJson j, decodeBytes rest with
    | some x, some xs => some (x :: xs)
    | _, _ => none

/-- Deserialization of the nonce array. -/
def nonceFromJson : Json → Option Nonce
  | .arr items =>
    match decodeBytes items with
    | some bs => if h : bs.length = 16 then some ⟨bs, h⟩ else none
    | none => none
  | _ => none

/-- Derived `Serialize` for `ChatMessage`: externally-tagged struct variants,
fields in declaration order. -/
def chatToJson : ChatMessage → Json
  | .AboutMe f n => .obj [("AboutMe", .obj [("from", peerIdToJson f), ("name", .str n)])]
  | .Message f t => .obj [("Message", .obj [("from", peerIdToJson f), ("text", .str t)])]
  | .GameRequest f => .obj [("GameRequest", .obj [("from", peerIdToJson f)])]
  | .GameStart f o g =>
    .obj [("GameStart", .obj [("from", peerIdToJson f), ("orig_sender", peerIdToJson o),
                              ("game_id", .num g)])]

/-- Derived `Deserialize` for `ChatMessage` on the canonical layout. -/
def chatFromJson : Json → Option ChatMessage
  | .obj [("AboutMe", .obj [("from", fj), ("name", .str n)])] =>
    (peerIdFromJson fj).map (fun f => .AboutMe f n)
  | .obj [("Message", .obj [("from", fj), ("text", .str t)])] =>
    (peerIdFromJson fj).map (fun f => .Message f t)
  | .obj [("GameRequest", .obj [("from", fj)])] =>
    (peerIdFromJson fj).map (fun f => .GameRequest f)
  | .obj [("GameStart", .obj [("from", fj), ("orig_sender", oj), ("game_id", .num g)])] =>
    match peerIdFromJson fj, peerIdFromJson oj with
    | some f, some o => some (.GameStart f o g)
    | _, _ => none
  | _ => none

/-- Derived `Serialize` for `GameMessage`. -/
def gameToJson : GameMessage → Json
  | .Aborted => .obj [("Aborted", .obj [])]

/-- Derived `Deserialize` for `GameMessage`. -/
def gameFromJson : Json → Option GameMessage
  | .obj [("Aborted", .obj [])] => some .Aborted
  | _ => none

/-- Derived `Serialize` for `MinimalMessageType`: externally-tagged newtype
variants. -/
def minimalMessageTypeToJson : MinimalMessageType → Json
  | .Chat c => .obj [("Chat", chatToJson c)]
  | .Game g => .obj [("Game", gameToJson g)]

/-- Derived `Deserialize` for `MinimalMessageType`. -/
def minimalMessageTypeFromJson : Json → Option MinimalMessageType
  | .obj [("Chat", j)] => (chatFromJson j).map .Chat
  | .obj [("Game", j)] => (gameFromJson j).map .Game
  | _ => none

/-- `MinimalMessage::to_vec` (main.rs lines 273-275), at the document level:
the derived `Serialize` for the envelope struct, fields in declaration
order. -/
def MinimalMessage.to_json (m : MinimalMessage) : Json :=
  .obj [("body", minimalMessageTypeToJson m.body), ("nonce", nonceToJson m.nonce)]

/-- `MinimalMessage::from_bytes` (main.rs lines 267-269), at the document
level: the derived `Deserialize` for the envelope struct. -/
def MinimalMessage.from_json : Json → Option MinimalMessage
  | .obj [("body", bj), ("nonce", nj)] =>
    match minimalMessageTypeFromJson bj, nonceFromJson nj with
    | some b, some n => some ⟨b, n⟩
    | _, _ => none
  | _ => none

/-- `MinimalMessage::new` (main.rs lines 270-272): attach a nonce (random at
run time; here a parameter ranging over all possible outcomes). -/
def MinimalMessage.new (body : MinimalMessageType) (nonce : Nonce) : MinimalMessage :=
  ⟨body, nonce⟩

/-! ## The matchmaking slot (main.rs lines 166-167, 199-223, 284-336)

`game_request_tracker: Arc<Mutex<Option<PublicKey>>>` is the single-slot
matchmaking queue.  The two code paths that touch it — the `/min` command
branch of `main` and the `GameRequest`/`GameStart` arms of `subscribe_loop` —
are embedded as pure step functions from the slot value to the slot value plus
the emitted effects. -/

/-- The matchmaking slot contents: `Option<PublicKey>`. -/
abbrev Slot := Option PeerId

/-- Effects of one `/min` command (main.rs lines 199-223): the broadcast
message, the new slot contents, and the spawned `begin_game` call (game id and
bootstrap list), if any. -/
structure MinCommandResult where
  broadcast : ChatMessage
  slot : Slot
  spawn_game : Option (ℚ × List PeerId)
  deriving DecidableEq

/-- The `/min` branch of `main` (lines 199-223).  `self` is
`endpoint.node_id()`; `game_id` is the value `rand::random_range(0.0..=1e9)`
returned on this invocation.  Occupied slot: broadcast
`GameStart{from: self, orig_sender: other, game_id}`, clear the slot, spawn
`begin_game(game_id, vec![])`.  Empty slot: broadcast `GameRequest{from: self}`
and set the slot to `Some(self)`. -/
def handle_min (self : PeerId) (slot : Slot) (game_id : ℚ) : MinCommandResult :=
  match slot with
  | some other_requester =>
    ⟨.GameStart self other_requester game_id, none, some (game_id, [])⟩
  | none =>
    ⟨.GameRequest self, some self, none⟩

/-- Effects of dispatching one received chat message in `subscribe_loop`
(main.rs lines 294-330): new slot contents and the spawned `begin_game` call,
if any.  (The name-directory bookkeeping and printing of lines 295-307 and
312-324 do not touch the slot and are omitted.) -/
structure DispatchResult where
  slot : Slot
  spawn_game : Option (ℚ × List PeerId)
  deriving DecidableEq

/-- One iteration of `subscribe_loop`'s message dispatch (main.rs lines
294-330) as it acts on the slot.  `GameRequest{from}` sets the slot to
`Some(from)` (line 311); `GameStart` sets it to `None` unconditionally (line
318) and spawns `begin_game(game_id, vec![from])` iff `orig_sender == our_id`
(lines 325-328); the other two variants leave the slot alone. -/
def subscribe_step (our_id : PeerId) (slot : Slot) (msg : ChatMessage) : DispatchResult :=
  match msg with
  | .AboutMe _ _ => ⟨slot, none⟩
  | .Message _ _ => ⟨slot, none⟩
  | .GameRequest f => ⟨some f, none⟩
  | .GameStart f o g => ⟨none, if o = our_id then some (g, [f]) else none⟩

/-- The slot contents after `subscribe_loop` dispatches a whole sequence of
messages. -/
def subscribe_run (our_id : PeerId) (init : Slot) (msgs : List ChatMessage) : Slot :=
  msgs.foldl (fun s m => (subscribe_step our_id s m).slot) init

/-! ## Lock discipline of the slot (for the concurrency contract)

Each slot-touching critical section is embedded as its literal sequence of
atomic actions: acquiring the guard, awaiting a network broadcast, writing the
slot, dropping the guard. -/

/-- An atomic action of a slot-touching code path. -/
inductive LockAction where
  | lock_acquire
  | broadcast_await (msg : ChatMessage)
  | slot_write (v : Slot)
  | lock_release
  deriving DecidableEq

/-- Whether an action is a network broadcast await. -/
def LockAction.is_broadcast : LockAction → Bool
  | .broadcast_await _ => true
  | _ => false

/-- The action sequence of the `/min` branch of `main` (lines 199-223): the
guard is taken at line 201 and dropped at the end of the enclosing block (line
223); in the occupied branch the broadcast is awaited at line 210 and the slot
written at line 211, in the empty branch the broadcast at line 219 and the
write at line 220 — all inside the guard's scope. -/
def min_command_actions (self : PeerId) (slot : Slot) (game_id : ℚ) : List LockAction :=
  match slot with
  | some other_requester =>
    [.lock_acquire,
     .broadcast_await (.GameStart self other_requester game_id),
     .slot_write none,
     .lock_release]
  | none =>
    [.lock_acquire,
     .broadcast_await (.GameRequest self),
     .slot_write (some self),
     .lock_release]

/-- The action sequence of the `GameRequest` arm of `subscribe_loop` (lines
308-314): guard at line 310, write at line 311, drop at line 314; no
broadcast. -/
def game_request_actions (f : PeerId) : List LockAction :=
  [.lock_acquire, .slot_write (some f), .lock_release]

/-- The action sequence of the `GameStart` arm of `subscribe_loop` (lines
315-329): guard at line 317, write at line 318, drop at line 328; no
broadcast. -/
def game_start_actions : List LockAction :=
  [.lock_acquire, .slot_write none, .lock_release]

/-- The sub-sequence of actions performed while the lock is held (strictly
between an acquire and its release). -/
def locked_section : List LockAction → ℕ → List LockAction
  | [], _ => []
  | a :: rest, depth =>
    match a with
    | .lock_acquire => locked_section rest (depth + 1)
    | .lock_release => locked_section rest (depth - 1)
    | _ => if depth > 0 then a :: locked_section rest depth else locked_section rest depth

/-- Actions of a trace performed while the lock is held. -/
def actions_under_lock (t : List LockAction) : List LockAction :=
  locked_section t 0

/-! ## Lock-failure behavior (main.rs lines 201, 310, 317)

All three acquisitions are `.lock().expect("should be able to acquire lock")`:
on a poisoned mutex `expect` panics, terminating the surrounding task.  The
panic is embedded as the error case of `Except`. -/

/-- The result of `Mutex::lock()`: a guard over the current contents, or a
poison error. -/
inductive LockResult (α : Type) where
  | ok (g : α)
  | poisoned

/-- A Rust panic, carrying the `expect` message. -/
inductive Panic where
  | panicked (msg : String)
  deriving DecidableEq

/-- `.lock().expect("should be able to acquire lock")`: unwrap the guard or
panic. -/
def lock_expect {α : Type} : LockResult α → Except Panic α
  | .ok g => .ok g
  | .poisoned => .error (.panicked "should be able to acquire lock")

/-- Whether a computation completed without panicking. -/
def continues_normally {α : Type} : Except Panic α → Bool
  | .ok _ => true
  | .error _ => false

/-- The `/min` branch of `main` including its lock acquisition (line 201). -/
def handle_min_checked (self : PeerId) (r : LockResult Slot) (game_id : ℚ) :
    Except Panic MinCommandResult :=
  (lock_expect r).map (fun slot => handle_min self slot game_id)

/-- The `GameRequest` arm of `subscribe_loop` including its lock acquisition
(line 310). -/
def handle_game_request_checked (r : LockResult Slot) (f : PeerId) : Except Panic Slot :=
  (lock_expect r).map (fun _ => some f)

/-- The `GameStart` arm of `subscribe_loop` including its lock acquisition
(line 317). -/
def handle_game_start_checked (r : LockResult Slot) : Except Panic Slot :=
  (lock_expect r).map (fun _ => none)

/-! ## The game session loop (`begin_game`, main.rs lines 348-433)

The terminal side effects that the loop drives (raw mode, mouse capture,
alternate screen) and the loop's control flow are embedded as an explicit
state machine over the stream of terminal events; rendering writes are
omitted.  Broadcast messages are collected in order. -/

/-- `MIN_TERM_COLS` (main.rs line 349). -/
def MIN_TERM_COLS : ℕ := 30

/-- `MIN_TERM_ROWS` (main.rs line 350). -/
def MIN_TERM_ROWS : ℕ := 7

/-- A terminal event from the `EventStream` (key / mouse / resize / other). -/
inductive SessEvent where
  | key (c : Char)
  | mouse
  | resize (cols rows : ℕ)
  | other
  deriving DecidableEq

/-- Terminal-relevant state of a running game session. -/
structure SessState where
  term_cols : ℕ
  term_rows : ℕ
  raw_mode : Bool
  alt_screen : Bool
  mouse_capture : Bool
  deriving DecidableEq, Repr

/-- Outcome of a piece of the session: the state afterwards, the broadcast
`GameMessage`s in order, and whether the event loop was exited (`break`). -/
structure SessOutcome where
  state : SessState
  broadcasts : List GameMessage
  terminated : Bool
  deriving DecidableEq, Repr

/-- One iteration of the event loop of `begin_game` (main.rs lines 378-431).
If raw mode was disabled externally, break without broadcasting or restoring
(lines 379-385).  On `q`: disable raw mode, release mouse capture, leave the
alternate screen, broadcast `Aborted`, break (lines 399-408).  On a resize
below the minimum size: update the size, broadcast `Aborted` — and fall
through into the next iteration without breaking or restoring (lines
420-427).  Mouse and other events only redraw. -/
def sess_step (st : SessState) (e : SessEvent) : SessOutcome :=
  if !st.raw_mode then
    ⟨st, [], true⟩
  else
    match e with
    | .key c =>
      if c = 'q' then
        ⟨{ st with raw_mode := false, alt_screen := false, mouse_capture := false },
         [.Aborted], true⟩
      else ⟨st, [], false⟩
    | .mouse => ⟨st, [], false⟩
    | .resize new_cols new_rows =>
      if new_cols < MIN_TERM_COLS ∨ new_rows < MIN_TERM_ROWS then
        ⟨{ st with term_cols := new_cols, term_rows := new_rows }, [.Aborted], false⟩
      else
        ⟨{ st with term_cols := new_cols, term_rows := new_rows }, [], false⟩
    | .other => ⟨st, [], false⟩

/-- The event loop of `begin_game` run over a stream of events, stopping at
the first `break`. -/
def sess_run (st : SessState) : List SessEvent → SessOutcome
  | [] => ⟨st, [], false⟩
  | e :: rest =>
    let r := sess_step st e
    if r.terminated then r
    else
      let rr := sess_run r.state rest
      ⟨rr.state, r.broadcasts ++ rr.broadcasts, rr.terminated⟩

/-- The setup and pre-loop size check of `begin_game` (main.rs lines 364-377):
enable raw mode, mouse capture and the alternate screen; then, if the terminal
is below the minimum size, broadcast `Aborted` — without breaking out or
restoring the terminal, falling through into the event loop. -/
def sess_start (cols rows : ℕ) : SessOutcome :=
  let st : SessState := ⟨cols, rows, true, true, true⟩
  if cols < MIN_TERM_COLS ∨ rows < MIN_TERM_ROWS then
    ⟨st, [.Aborted], false⟩
  else
    ⟨st, [], false⟩

/-- `begin_game`'s interactive part as a whole: setup then the event loop over
the given stream of terminal events. -/
def begin_game_run (cols rows : ℕ) (events : List SessEvent) : SessOutcome :=
  let s0 := sess_start cols rows
  let r := sess_run s0.state events
  ⟨r.state, s0.broadcasts ++ r.broadcasts, r.terminated⟩

/-! ## Game ids and the session topic (main.rs lines 204, 352-358) -/

/-- The possible outcomes of `rand::random_range(0.0..=1e9)` (main.rs line
204): the inclusive range `0.0..=1e9`, both endpoints attainable. -/
def game_id_possible (q : ℚ) : Prop := 0 ≤ q ∧ q ≤ 10 ^ 9

instance : DecidablePred game_id_possible := fun _ => instDecidableAnd

/-- The session topic bytes built by `begin_game` (main.rs lines 353-358): a
zero-initialized 32-byte array whose first `bytes.len()` entries are
overwritten with `game_id.to_le_bytes()`.  The argument is that little-endian
byte representation (always 8 bytes for an `f64`). -/
def begin_game_topic (bytes : List Byte) : List Byte :=
  bytes ++ List.replicate (32 - bytes.length) 0

/-! ## Codec roundtrip lemmas -/

theorem peerIdFromJson_toJson (p : PeerId) : peerIdFromJson (peerIdToJson p) = some p := by
  simp only [peerIdToJson, peerIdFromJson]
  rw [if_pos ⟨Rat.den_natCast _, by rw [Rat.num_natCast]; exact Int.natCast_nonneg _⟩]
  simp [Rat.num_natCast]

theorem byteFromJson_toJson (b : Byte) : byteFromJson (byteToJson b) = some b := by
  have hlt : (b : ℕ) < 256 := b.isLt
  simp only [byteToJson, byteFromJson]
  rw [dif_pos ⟨Rat.den_natCast _, by rw [Rat.num_natCast]; exact Int.natCast_nonneg _, by
    rw [Rat.num_natCast]; exact_mod_cast hlt⟩]
  apply congrArg
  apply Fin.ext
  simp [Rat.num_natCast]

theorem decodeBytes_map_byteToJson (l : List Byte) : decodeBytes (l.map byteToJson) = some l := by
  induction l with
  | nil => rfl
  | cons x xs ih => simp [decodeBytes, byteFromJson_toJson, ih]

theorem nonceFromJson_toJson (n : Nonce) : nonceFromJson (nonceToJson n) = some n := by
  simp only [nonceToJson, nonceFromJson, decodeBytes_map_byteToJson]
  rw [dif_pos n.2]
  exact congrArg some (Subtype.eta _ _)

theorem chatFromJson_toJson (c : ChatMessage) : chatFromJson (chatToJson c) = some c := by
  cases c <;> simp [chatToJson, chatFromJson, peerIdFromJson_toJson]

theorem gameFromJson_toJson (g : GameMessage) : gameFromJson (gameToJson g) = some g := by
  cases g; rfl

theorem minimalMessageTypeFromJson_toJson (b : MinimalMessageType) :
    minimalMessageTypeFromJson (minimalMessageTypeToJson b) = some b := by
  cases b with
  | Chat c => simp [minimalMessageTypeToJson, minimalMessageTypeFromJson, chatFromJson_toJson]
  | Game g => simp [minimalMessageTypeToJson, minimalMessageTypeFromJson, gameFromJson_toJson]

/-! ## Claim theorems -/

/-- C1: for every valid `MinimalMessageType` body `b` and every possible fresh
16-byte nonce, encoding `MinimalMessage::new(b)` and decoding the result
succeeds and yields a message whose body equals `b` field-wise (the nonce does
not enter the comparison). -/
theorem C1_encode_decode_roundtrip (b : MinimalMessageType) (nonce : Nonce) :
    (MinimalMessage.from_json (MinimalMessage.to_json (MinimalMessage.new b nonce))).map
      MinimalMessage.body = some b := by
  simp [MinimalMessage.new, MinimalMessage.to_json, MinimalMessage.from_json,
    minimalMessageTypeFromJson_toJson, nonceFromJson_toJson]

/-- C2: after `subscribe_loop` dispatches any sequence of messages the slot
holds at most one `PeerId`; handling `GameRequest{from}` sets the slot to
`Some(from)` whatever it held (last request wins); handling `GameStart` always
leaves the slot empty, whatever it held and whoever `orig_sender` is. -/
theorem C2_slot_invariant (our_id : PeerId) (init : Slot) (msgs : List ChatMessage)
    (s : Slot) (f o : PeerId) (g : ℚ) (p q : PeerId)
    (hp : subscribe_run our_id init msgs = some p)
    (hq : subscribe_run our_id init msgs = some q) :
    p = q
    ∧ (subscribe_step our_id s (.GameRequest f)).slot = some f
    ∧ (subscribe_step our_id s (.GameStart f o g)).slot = none := by
  refine ⟨?_, rfl, rfl⟩
  rw [hp] at hq
  exact Option.some.inj hq

/-- Witness for C2 at a concrete run. -/
theorem C2_slot_invariant_witness :
    subscribe_run 0 none [ChatMessage.GameRequest 5] = some 5
    ∧ ((5 : PeerId) = 5
       ∧ (subscribe_step 0 (some 3) (.GameRequest 4)).slot = some 4
       ∧ (subscribe_step 0 (some 3) (.GameStart 4 6 0)).slot = none) :=
  ⟨by decide,
   C2_slot_invariant 0 none [ChatMessage.GameRequest 5] (some 3) 4 6 0 5 5 (by decide) (by decide)⟩

/-- C3: on a local `/min`, an occupied slot `Some(other)` yields a broadcast
of `GameStart{from: self, orig_sender: other, game_id}`, a cleared slot and a
spawned session with an empty bootstrap list; an empty slot yields a broadcast
of `GameRequest{from: self}` and the slot set to `Some(self)`. -/
theorem C3_min_command (self other : PeerId) (gid : ℚ) :
    handle_min self (some other) gid =
      ⟨.GameStart self other gid, none, some (gid, [])⟩
    ∧ handle_min self none gid = ⟨.GameRequest self, some self, none⟩ :=
  ⟨rfl, rfl⟩

/-- C10: the occupied branch of `/min` never compares the slot holder with the
local node: when the slot holds the local node's own id, the node broadcasts
`GameStart{from: self, orig_sender: self, game_id}` and spawns a game session
(with itself on both sides of the message). -/
theorem C10_min_self_accept (self : PeerId) (gid : ℚ) :
    handle_min self (some self) gid =
      ⟨.GameStart self self gid, none, some (gid, [])⟩ := rfl

/-- C4 (divergence evaluation): in a 10x5 terminal (below the 30x7 minimum)
`begin_game` broadcasts `Aborted` at session start but the event loop keeps
running (a further key event is consumed, `terminated = false`) and the
terminal is left in raw mode on the alternate screen; likewise after a resize
to 10x5 mid-session; only the `q` quit path terminates the loop, broadcasts
`Aborted` and restores the terminal. -/
theorem C4_session_abort_divergence :
    begin_game_run 10 5 [.key 'x'] = ⟨⟨10, 5, true, true, true⟩, [.Aborted], false⟩
    ∧ begin_game_run 80 24 [.resize 10 5, .mouse] = ⟨⟨10, 5, true, true, true⟩, [.Aborted], false⟩
    ∧ begin_game_run 80 24 [.key 'q', .mouse] = ⟨⟨80, 24, false, false, false⟩, [.Aborted], true⟩ := by
  decide

/-- C5 (counterexample): in the `/min` path with an occupied slot, the
broadcast send is awaited while the slot's lock is held — the broadcast action
lies inside the locked section of the trace. -/
theorem C5_counterexample :
    LockAction.broadcast_await (.GameStart 0 1 0) ∈
      actions_under_lock (min_command_actions 0 (some 1) 0) := by decide

/-- C5 (amended): in every `/min` path a broadcast is awaited while the slot's
lock is held, and the slot-mutating paths of `subscribe_loop` perform no
broadcast at all. -/
theorem C5_lock_held_across_broadcast (self : PeerId) (slot : Slot) (gid : ℚ) (f : PeerId) :
    (actions_under_lock (min_command_actions self slot gid)).any LockAction.is_broadcast = true
    ∧ (actions_under_lock (game_request_actions f)).any LockAction.is_broadcast = false
    ∧ (actions_under_lock game_start_actions).any LockAction.is_broadcast = false := by
  refine ⟨?_, rfl, rfl⟩
  cases slot <;> rfl

/-- C6 (counterexample): a poisoned lock makes the `/min` path panic via
`expect` — it does not continue with a recoverable notice. -/
theorem C6_counterexample :
    continues_normally (handle_min_checked 0 .poisoned 0) = false
    ∧ handle_min_checked 0 .poisoned 0 =
        .error (.panicked "should be able to acquire lock") := ⟨rfl, rfl⟩

/-- C6 (amended): every lock acquisition on the slot — the `/min` path and the
`GameRequest` and `GameStart` arms of `subscribe_loop` — panics with the
`expect` message when acquisition fails, terminating the surrounding task
instead of continuing. -/
theorem C6_lock_failure_panics (self : PeerId) (gid : ℚ) (f : PeerId) :
    handle_min_checked self .poisoned gid = .error (.panicked "should be able to acquire lock")
    ∧ handle_game_request_checked .poisoned f = .error (.panicked "should be able to acquire lock")
    ∧ handle_game_start_checked .poisoned = .error (.panicked "should be able to acquire lock")
    ∧ continues_normally (handle_min_checked self .poisoned gid) = false :=
  ⟨rfl, rfl, rfl, rfl⟩

/-- C7 (counterexample): the range sampled at main.rs line 204 is the
inclusive `0.0..=1e9`, so `1e9` itself is a possible `game_id` — it is not
strictly less than `1e9`. -/
theorem C7_counterexample :
    game_id_possible (10 ^ 9) ∧ ¬ ((10 ^ 9 : ℚ) < 10 ^ 9) := by
  norm_num [game_id_possible]

/-- C7 (amended): every possible `game_id` lies in the closed interval
`[0, 1e9]`, and the session topic is the id's 8-byte representation embedded
into a 32-byte identifier padded with 24 zero bytes. -/
theorem C7_game_id_range_topic (q : ℚ) (bytes : List Byte) (h : bytes.length = 8) :
    (game_id_possible q ↔ 0 ≤ q ∧ q ≤ 10 ^ 9)
    ∧ begin_game_topic bytes = bytes ++ List.replicate 24 0
    ∧ (begin_game_topic bytes).length = 32 := by
  refine ⟨Iff.rfl, ?_, ?_⟩
  · simp [begin_game_topic, h]
  · simp [begin_game_topic, h]

/-- Witness for C7 at a concrete byte representation. -/
theorem C7_game_id_range_topic_witness :
    (List.replicate 8 (0 : Byte)).length = 8
    ∧ ((game_id_possible 5 ↔ 0 ≤ (5 : ℚ) ∧ (5 : ℚ) ≤ 10 ^ 9)
       ∧ begin_game_topic (List.replicate 8 0) = List.replicate 8 0 ++ List.replicate 24 0
       ∧ (begin_game_topic (List.replicate 8 0)).length = 32) :=
  ⟨by decide, C7_game_id_range_topic 5 (List.replicate 8 0) (by decide)⟩

/-- C8: `craft` returns `None` exactly when the input multiset matches no
recipe-table entry, any returned recipe is the unique table entry whose
components equal the input, and every skill-kind component's description is
the description of its own single-component recipe. -/
theorem C8_craft_exact_match (m : Multiset Component) (c : Component)
    (hc : c.is_color = false) :
    (Skill.craft m = none ↔ ∀ r ∈ Skill.get_all_recipes, m ≠ r.components)
    ∧ (∀ sk, Skill.craft m = some sk →
        sk ∈ Skill.get_all_recipes ∧ m = sk.components
        ∧ ∀ r ∈ Skill.get_all_recipes, m = r.components → r = sk)
    ∧ ∃ sk, Skill.craft {c} = some sk ∧ Component.get_description c = sk.description := by
  refine ⟨?_, ?_, ?_⟩
  · simp [Skill.craft, List.find?_eq_none]
  · intro sk hsk
    simp only [Skill.craft] at hsk
    have hmem := List.mem_of_find?_eq_some hsk
    have hp := List.find?_some hsk
    simp only [decide_eq_true_eq] at hp
    have hm : m = sk.components := hp
    refine ⟨hmem, hm, ?_⟩
    intro r hr hmr
    have hinj : ∀ x ∈ Skill.get_all_recipes, ∀ y ∈ Skill.get_all_recipes,
        x.components = y.components → x = y := by decide
    exact hinj r hr sk hmem (by rw [← hmr, hm])
  · cases c with
    | Red => simp [Component.is_color] at hc
    | Green => simp [Component.is_color] at hc
    | Blue => simp [Component.is_color] at hc
    | Attack =>
      exact ⟨⟨"Attack", "Deal 80% of Red power as Red damage", {Component.Attack}⟩,
        by decide, by decide⟩
    | Block => exact ⟨⟨"Block", "no idea tbh", {Component.Block}⟩, by decide, by decide⟩
    | Buff => exact ⟨⟨"Buff", "no idea tbh 2", {Component.Buff}⟩, by decide, by decide⟩
    | Debuff => exact ⟨⟨"Debuff", "no idea tbh 3", {Component.Debuff}⟩, by decide, by decide⟩
    | Stun => exact ⟨⟨"Stun", "no idea tbh 4", {Component.Stun}⟩, by decide, by decide⟩

/-- Witness for C8 at the singleton `Attack` multiset. -/
theorem C8_craft_exact_match_witness :
    Component.is_color .Attack = false
    ∧ ((Skill.craft {Component.Attack} = none ↔
          ∀ r ∈ Skill.get_all_recipes, ({Component.Attack} : Multiset Component) ≠ r.components)
       ∧ (∀ sk, Skill.craft {Component.Attack} = some sk →
            sk ∈ Skill.get_all_recipes ∧ ({Component.Attack} : Multiset Component) = sk.components
            ∧ ∀ r ∈ Skill.get_all_recipes,
                ({Component.Attack} : Multiset Component) = r.components → r = sk)
       ∧ ∃ sk, Skill.craft {Component.Attack} = some sk
           ∧ Component.get_description .Attack = sk.description) :=
  ⟨by decide, C8_craft_exact_match {Component.Attack} .Attack (by decide)⟩

/-- C9: for byte strings of length at most 32, `bytes_from_str` returns the
input followed by zero padding (32 bytes in all) and is injective on inputs of
equal length; for longer inputs it returns exactly the first 32 bytes, so two
inputs sharing their first 32 bytes collide. -/
theorem C9_bytes_from_str_spec (s a b t u : List Byte)
    (hs : s.length ≤ 32) (ha : a.length ≤ 32) (hb : b.length ≤ 32)
    (hab : a.length = b.length)
    (ht : 32 < t.length) (hu : 32 < u.length)
    (hshare : t.take 32 = u.take 32) :
    bytes_from_str s = s ++ List.replicate (32 - s.length) 0
    ∧ (bytes_from_str s).length = 32
    ∧ (bytes_from_str a = bytes_from_str b → a = b)
    ∧ bytes_from_str t = t.take 32
    ∧ (bytes_from_str t).length = 32
    ∧ bytes_from_str t = bytes_from_str u := by
  have hpad : ∀ v : List Byte, v.length ≤ 32 →
      bytes_from_str v = v ++ List.replicate (32 - v.length) 0 := by
    intro v hv
    simp [bytes_from_str, Nat.not_lt.mpr hv]
  have htr : ∀ v : List Byte, 32 < v.length → bytes_from_str v = v.take 32 := by
    intro v hv
    simp [bytes_from_str, hv]
  refine ⟨hpad s hs, ?_, ?_, htr t ht, ?_, ?_⟩
  · rw [hpad s hs]
    simp
    omega
  · intro h
    rw [hpad a ha, hpad b hb] at h
    exact (List.append_inj h hab).1
  · rw [htr t ht]
    simp
    omega
  · rw [htr t ht, htr u hu, hshare]

/-- Witness for C9 at concrete byte strings. -/
theorem C9_bytes_from_str_spec_witness :
    ([1, 2, 3] : List Byte).length ≤ 32
    ∧ ([4] : List Byte).length ≤ 32
    ∧ ([5] : List Byte).length ≤ 32
    ∧ ([4] : List Byte).length = ([5] : List Byte).length
    ∧ 32 < (List.replicate 33 (0 : Byte)).length
    ∧ 32 < (List.replicate 34 (0 : Byte)).length
    ∧ (List.replicate 33 (0 : Byte)).take 32 = (List.replicate 34 (0 : Byte)).take 32
    ∧ (bytes_from_str [1, 2, 3] = [1, 2, 3] ++ List.replicate (32 - ([1, 2, 3] : List Byte).length) 0
       ∧ (bytes_from_str [1, 2, 3]).length = 32
       ∧ (bytes_from_str [4] = bytes_from_str [5] → ([4] : List Byte) = [5])
       ∧ bytes_from_str (List.replicate 33 0) = (List.replicate 33 (0 : Byte)).take 32
       ∧ (bytes_from_str (List.replicate 33 0)).length = 32
       ∧ bytes_from_str (List.replicate 33 0) = bytes_from_str (List.replicate 34 0)) :=
  ⟨by decide, by decide, by decide, by decide, by decide, by decide, by decide,
   C9_bytes_from_str_spec [1, 2, 3] [4] [5] (List.replicate 33 0) (List.replicate 34 0)
     (by decide) (by decide) (by decide) (by decide) (by decide) (by decide) (by decide)⟩

end Minimal
